import Mathlib

/-!
Shallow embedding of `src/mcp/server/auth/routes.py`: issuer validation,
authorization-server metadata construction, and route-table assembly,
together with theorems checking the specification's claims against it.
-/

namespace AuthRoutes

/-- Model of a pydantic `AnyHttpUrl` value as the Python code consumes it:
the parsed components `scheme`, `host` (which the code guards with
`url.host is not None`, so it is optional), `fragment` and `query`
(`str | None` in pydantic; the code tests them for Python truthiness), and
`text`, the result of `str(url)` used by `build_metadata`. -/
structure AnyHttpUrl where
  scheme : String
  host : Option String
  fragment : Option String
  query : Option String
  text : String
deriving DecidableEq

/-- Python truthiness of a `str | None` value: `None` and `""` are falsy. -/
def pyTruthy : Option String → Bool
  | none => false
  | some s => s != ""

/-- `validate_issuer_url` from `routes.py`: raising `ValueError(msg)` is
embedded as `Except.error msg`, returning normally as `Except.ok ()`. -/
def validate_issuer_url (url : AnyHttpUrl) : Except String Unit :=
  -- RFC 8414 requires HTTPS, but we allow localhost HTTP for testing
  if url.scheme != "https" && url.host != some "localhost" &&
      (match url.host with
       | none => false
       | some h => !("127.0.0.1".isPrefixOf h)) then
    Except.error "Issuer URL must be HTTPS"
  -- No fragments or query parameters allowed
  else if pyTruthy url.fragment then
    Except.error "Issuer URL must not have a fragment"
  else if pyTruthy url.query then
    Except.error "Issuer URL must not have a query string"
  else
    Except.ok ()

def AUTHORIZATION_PATH : String := "/authorize"

def TOKEN_PATH : String := "/token"

def REGISTRATION_PATH : String := "/register"

def REVOCATION_PATH : String := "/revoke"

/-- Modelled from the spec: `ClientRegistrationOptions` lives in
`mcp/server/auth/settings.py`, which is not part of the given sources.
The spec describes the Client Registration Policy as
`{enabled: bool, valid scopes: ordered list of scope strings}`, where the
scope list may be absent. -/
structure ClientRegistrationOptions where
  enabled : Bool
  valid_scopes : Option (List String)
deriving DecidableEq

/-- Modelled from the spec: `RevocationOptions` lives in
`mcp/server/auth/settings.py`, which is not part of the given sources.
The spec describes the Revocation Policy as `{enabled: bool}`. -/
structure RevocationOptions where
  enabled : Bool
deriving DecidableEq

/-- Modelled from the spec: the defaults used for
`client_registration_options or ClientRegistrationOptions()`. The spec's
policy structs gate optional endpoints on `enabled`, and a configuration
that supplies no policy advertises neither endpoint, so the default policy
is disabled with no scope list. -/
def defaultClientRegistrationOptions : ClientRegistrationOptions :=
  { enabled := false, valid_scopes := none }

/-- Modelled from the spec: the default used for
`revocation_options or RevocationOptions()`; revocation is disabled when
no policy is supplied. -/
def defaultRevocationOptions : RevocationOptions :=
  { enabled := false }

/-- Modelled from the spec: `OAuthMetadata` lives in `mcp/shared/auth.py`,
which is not part of the given sources. Fields follow the spec's
Authorization Server Metadata document; optional fields use `none` for a
field that is entirely absent from the serialized document. URL-valued
fields are carried as their strings. -/
structure OAuthMetadata where
  issuer : String
  authorization_endpoint : String
  token_endpoint : String
  scopes_supported : Option (List String)
  response_types_supported : List String
  response_modes_supported : Option (List String)
  grant_types_supported : List String
  token_endpoint_auth_methods_supported : List String
  token_endpoint_auth_signing_alg_values_supported : Option (List String)
  service_documentation : Option String
  ui_locales_supported : Option (List String)
  op_policy_uri : Option String
  op_tos_uri : Option String
  introspection_endpoint : Option String
  code_challenge_methods_supported : List String
  registration_endpoint : Option String
  revocation_endpoint : Option String
  revocation_endpoint_auth_methods_supported : Option (List String)
deriving DecidableEq

/-- Modelled from the spec: `ProtectedResourceMetadata` lives in
`mcp/shared/auth.py`, which is not part of the given sources. The spec's
Protected Resource Metadata document carries the resource identifier, the
list of trusted authorization servers, optional supported scopes, and
bearer-token delivery methods. -/
structure ProtectedResourceMetadata where
  resource : String
  authorization_servers : List String
  scopes_supported : Option (List String)
  bearer_methods_supported : List String
deriving DecidableEq

/-- Modelled from the spec: construction of `ProtectedResourceMetadata`
(a pydantic model in `mcp/shared/auth.py`, not part of the given sources).
Per the spec, an empty trusted-issuer list is a configuration error that
fails assembly outright, and `bearer_methods_supported` defaults to
header delivery. -/
def mkProtectedResourceMetadata (resource : String)
    (authorization_servers : List String)
    (scopes_supported : Option (List String)) :
    Except String ProtectedResourceMetadata :=
  if authorization_servers.isEmpty then
    Except.error "authorization_servers must not be empty"
  else
    Except.ok
      { resource := resource
        authorization_servers := authorization_servers
        scopes_supported := scopes_supported
        bearer_methods_supported := ["header"] }

/-- `str.rstrip("/")` as used on `str(issuer_url)`: removes every trailing
`'/'` character. -/
def rstripSlash (s : String) : String :=
  ((s.data.reverse.dropWhile (fun c => c == '/')).reverse).asString

/-- `build_metadata` from `routes.py`. The two post-construction mutations
(`metadata.registration_endpoint = ...` under the registration flag, the
revocation pair under the revocation flag) become functional record
updates. -/
def build_metadata (issuer_url : AnyHttpUrl)
    (service_documentation_url : Option String)
    (client_registration_options : ClientRegistrationOptions)
    (revocation_options : RevocationOptions) : OAuthMetadata :=
  let authorization_url := rstripSlash issuer_url.text ++ AUTHORIZATION_PATH
  let token_url := rstripSlash issuer_url.text ++ TOKEN_PATH
  let metadata : OAuthMetadata :=
    { issuer := issuer_url.text
      authorization_endpoint := authorization_url
      token_endpoint := token_url
      scopes_supported := client_registration_options.valid_scopes
      response_types_supported := ["code"]
      response_modes_supported := none
      grant_types_supported := ["authorization_code", "refresh_token"]
      token_endpoint_auth_methods_supported := ["client_secret_post"]
      token_endpoint_auth_signing_alg_values_supported := none
      service_documentation := service_documentation_url
      ui_locales_supported := none
      op_policy_uri := none
      op_tos_uri := none
      introspection_endpoint := none
      code_challenge_methods_supported := ["S256"]
      registration_endpoint := none
      revocation_endpoint := none
      revocation_endpoint_auth_methods_supported := none }
  -- Add registration endpoint if supported
  let metadata :=
    if client_registration_options.enabled then
      { metadata with
          registration_endpoint :=
            some (rstripSlash issuer_url.text ++ REGISTRATION_PATH) }
    else metadata
  -- Add revocation endpoint if supported
  let metadata :=
    if revocation_options.enabled then
      { metadata with
          revocation_endpoint :=
            some (rstripSlash issuer_url.text ++ REVOCATION_PATH)
          revocation_endpoint_auth_methods_supported :=
            some ["client_secret_post"] }
    else metadata
  metadata

/-- The provider of the delegated handlers; its internals are opaque to
this core, so it is a bare token. -/
structure OAuthAuthorizationServerProvider where
  id : Nat
deriving DecidableEq

/-- `ClientAuthenticator(provider)` from the client-auth middleware. -/
structure ClientAuthenticator where
  provider : OAuthAuthorizationServerProvider
deriving DecidableEq

/-- The delegated handler units, identified by which handler class is
constructed and with which arguments, as in `create_auth_routes`. -/
inductive Handler where
  | metadataH : OAuthMetadata → Handler
  | authorizationH : OAuthAuthorizationServerProvider → Handler
  | tokenH : OAuthAuthorizationServerProvider → ClientAuthenticator → Handler
  | registrationH : OAuthAuthorizationServerProvider →
      ClientRegistrationOptions → Handler
  | revocationH : OAuthAuthorizationServerProvider →
      ClientAuthenticator → Handler
  | protectedResourceH : ProtectedResourceMetadata → Handler
deriving DecidableEq

/-- The `CORSMiddleware` wrapper: the wrapped handler together with the
cross-origin policy configured on it. -/
structure CORSMiddleware where
  app : Handler
  allow_origins : String
  allow_methods : List String
  allow_headers : List String
deriving DecidableEq

/-- A route endpoint: either a bare handler or a CORS-wrapped one. -/
inductive Endpoint where
  | plain : Handler → Endpoint
  | cors : CORSMiddleware → Endpoint
deriving DecidableEq

/-- Modelled from the spec: `MCP_PROTOCOL_VERSION_HEADER` is imported from
`mcp/server/streamable_http.py`, which is not part of the given sources.
The spec describes it as the protocol-version header used by this
ecosystem's wire protocol. -/
def MCP_PROTOCOL_VERSION_HEADER : String := "mcp-protocol-version"

/-- `cors_middleware` from `routes.py`: wraps a handler with a policy that
allows any origin, the given methods, and exactly the protocol-version
header. -/
def cors_middleware (handler : Handler) (allow_methods : List String) :
    Endpoint :=
  Endpoint.cors
    { app := handler
      allow_origins := "*"
      allow_methods := allow_methods
      allow_headers := [MCP_PROTOCOL_VERSION_HEADER] }

/-- A Starlette `Route` as constructed in `routes.py`: path, endpoint and
allowed methods. -/
structure Route where
  path : String
  endpoint : Endpoint
  methods : List String
deriving DecidableEq

/-- `create_auth_routes` from `routes.py`. The `ValueError` raised by
`validate_issuer_url` propagates as `Except.error`; the Python
`options or Options()` defaulting on `None` arguments becomes `Option.getD`
with the modelled defaults. -/
def create_auth_routes (provider : OAuthAuthorizationServerProvider)
    (issuer_url : AnyHttpUrl)
    (service_documentation_url : Option String)
    (client_registration_options : Option ClientRegistrationOptions)
    (revocation_options : Option RevocationOptions) :
    Except String (List Route) :=
  match validate_issuer_url issuer_url with
  | Except.error e => Except.error e
  | Except.ok _ =>
    let cro := client_registration_options.getD defaultClientRegistrationOptions
    let ro := revocation_options.getD defaultRevocationOptions
    let metadata := build_metadata issuer_url service_documentation_url cro ro
    let client_authenticator : ClientAuthenticator := { provider := provider }
    let routes : List Route :=
      [ { path := "/.well-known/oauth-authorization-server"
          endpoint := cors_middleware (Handler.metadataH metadata)
            ["GET", "OPTIONS"]
          methods := ["GET", "OPTIONS"] },
        { path := AUTHORIZATION_PATH
          -- do not allow CORS for authorization endpoint;
          -- clients should just redirect to this
          endpoint := Endpoint.plain (Handler.authorizationH provider)
          methods := ["GET", "POST"] },
        { path := TOKEN_PATH
          endpoint := cors_middleware
            (Handler.tokenH provider client_authenticator)
            ["POST", "OPTIONS"]
          methods := ["POST", "OPTIONS"] } ]
    let routes :=
      if cro.enabled then
        routes ++
          [ { path := REGISTRATION_PATH
              endpoint := cors_middleware (Handler.registrationH provider cro)
                ["POST", "OPTIONS"]
              methods := ["POST", "OPTIONS"] } ]
      else routes
    let routes :=
      if ro.enabled then
        routes ++
          [ { path := REVOCATION_PATH
              endpoint := cors_middleware
                (Handler.revocationH provider client_authenticator)
                ["POST", "OPTIONS"]
              methods := ["POST", "OPTIONS"] } ]
      else routes
    Except.ok routes

/-- `create_protected_resource_routes` from `routes.py`; the metadata
model construction may fail (spec-modelled non-empty issuer-list check),
and that failure propagates. -/
def create_protected_resource_routes (resource_url : String)
    (authorization_servers : List String)
    (scopes_supported : Option (List String)) :
    Except String (List Route) :=
  match mkProtectedResourceMetadata resource_url authorization_servers
      scopes_supported with
  | Except.error e => Except.error e
  | Except.ok metadata =>
    Except.ok
      [ { path := "/.well-known/oauth-protected-resource"
          endpoint := cors_middleware (Handler.protectedResourceH metadata)
            ["GET", "OPTIONS"]
          methods := ["GET", "OPTIONS"] } ]

/-- The derivation rule exactly as one claim words it, for comparison with
the code's `rstripSlash`: strip exactly one trailing slash from the issuer
string (the code's `rstrip` removes every trailing slash instead). -/
def claimedStripOneTrailingSlash (s : String) : String :=
  match s.data.reverse with
  | '/' :: rest => rest.reverse.asString
  | _ => s

/-- Concrete issuer from the spec's worked example. -/
def exampleIssuer : AnyHttpUrl :=
  { scheme := "https", host := some "auth.example.com", fragment := none,
    query := none, text := "https://auth.example.com" }

/-- Concrete issuer with no host component and a non-secure scheme. -/
def exampleHostlessHttp : AnyHttpUrl :=
  { scheme := "http", host := none, fragment := none, query := none,
    text := "http:///" }

/-- Concrete issuer whose string form ends in two slashes. -/
def exampleDoubleSlash : AnyHttpUrl :=
  { scheme := "https", host := some "auth.example.com", fragment := none,
    query := none, text := "https://auth.example.com//" }

/-- A concrete provider token for instantiating the route assembler. -/
def exampleProvider : OAuthAuthorizationServerProvider := { id := 0 }

/-- A concrete enabled registration policy with two scopes. -/
def exampleRegistrationOptions : ClientRegistrationOptions :=
  { enabled := true, valid_scopes := some ["read", "write"] }

/-- A concrete enabled revocation policy. -/
def exampleRevocationOptions : RevocationOptions := { enabled := true }

end AuthRoutes

namespace AuthRoutes

/-- The validator returns `ok` exactly when all three checks are off. -/
theorem validate_ok_iff (url : AnyHttpUrl) :
    validate_issuer_url url = Except.ok () ↔
      ((url.scheme != "https" && url.host != some "localhost" &&
        (match url.host with
         | none => false
         | some h => !("127.0.0.1".isPrefixOf h))) = false ∧
       pyTruthy url.fragment = false ∧ pyTruthy url.query = false) := by
  unfold validate_issuer_url
  rcases h1 : (url.scheme != "https" && url.host != some "localhost" &&
        (match url.host with
         | none => false
         | some h => !("127.0.0.1".isPrefixOf h))) <;>
    rcases h2 : pyTruthy url.fragment <;>
    rcases h3 : pyTruthy url.query <;>
    simp [h1, h2, h3]

/-- The scheme check passes exactly for https, an absent host, a
localhost host, or a host starting with 127.0.0.1. -/
theorem schemeCond_false_iff (url : AnyHttpUrl) :
    (url.scheme != "https" && url.host != some "localhost" &&
      (match url.host with
       | none => false
       | some h => !("127.0.0.1".isPrefixOf h))) = false ↔
      (url.scheme = "https" ∨ url.host = none ∨
       url.host = some "localhost" ∨
       ∃ h, url.host = some h ∧ "127.0.0.1".isPrefixOf h = true) := by
  cases hh : url.host with
  | none => simp [hh]
  | some h =>
    by_cases hs : url.scheme = "https" <;>
    by_cases hl : h = "localhost" <;>
    by_cases hp : "127.0.0.1".isPrefixOf h = true <;>
    simp [hh, hs, hl, hp]

/-- Normal form of `build_metadata`: one record whose conditional fields
carry their enablement tests explicitly. -/
theorem build_metadata_eq (issuer : AnyHttpUrl) (doc : Option String)
    (cro : ClientRegistrationOptions) (ro : RevocationOptions) :
    build_metadata issuer doc cro ro =
      { issuer := issuer.text
        authorization_endpoint := rstripSlash issuer.text ++ AUTHORIZATION_PATH
        token_endpoint := rstripSlash issuer.text ++ TOKEN_PATH
        scopes_supported := cro.valid_scopes
        response_types_supported := ["code"]
        response_modes_supported := none
        grant_types_supported := ["authorization_code", "refresh_token"]
        token_endpoint_auth_methods_supported := ["client_secret_post"]
        token_endpoint_auth_signing_alg_values_supported := none
        service_documentation := doc
        ui_locales_supported := none
        op_policy_uri := none
        op_tos_uri := none
        introspection_endpoint := none
        code_challenge_methods_supported := ["S256"]
        registration_endpoint :=
          if cro.enabled then
            some (rstripSlash issuer.text ++ REGISTRATION_PATH)
          else none
        revocation_endpoint :=
          if ro.enabled then
            some (rstripSlash issuer.text ++ REVOCATION_PATH)
          else none
        revocation_endpoint_auth_methods_supported :=
          if ro.enabled then some ["client_secret_post"] else none } := by
  cases hc : cro.enabled <;> cases hr : ro.enabled <;>
    simp [build_metadata, hc, hr]

/-- On a valid issuer, `create_auth_routes` returns the three fixed routes
followed by the conditional registration and revocation routes. -/
theorem create_auth_routes_ok (provider : OAuthAuthorizationServerProvider)
    (issuer : AnyHttpUrl) (doc : Option String)
    (cro : ClientRegistrationOptions) (ro : RevocationOptions)
    (h : validate_issuer_url issuer = Except.ok ()) :
    create_auth_routes provider issuer doc (some cro) (some ro) =
      Except.ok
        (([ { path := "/.well-known/oauth-authorization-server"
              endpoint := cors_middleware
                (Handler.metadataH (build_metadata issuer doc cro ro))
                ["GET", "OPTIONS"]
              methods := ["GET", "OPTIONS"] },
            { path := AUTHORIZATION_PATH
              endpoint := Endpoint.plain (Handler.authorizationH provider)
              methods := ["GET", "POST"] },
            { path := TOKEN_PATH
              endpoint := cors_middleware
                (Handler.tokenH provider { provider := provider })
                ["POST", "OPTIONS"]
              methods := ["POST", "OPTIONS"] } ] ++
          (if cro.enabled then
            [ { path := REGISTRATION_PATH
                endpoint := cors_middleware
                  (Handler.registrationH provider cro) ["POST", "OPTIONS"]
                methods := ["POST", "OPTIONS"] } ]
          else [])) ++
          (if ro.enabled then
            [ { path := REVOCATION_PATH
                endpoint := cors_middleware
                  (Handler.revocationH provider { provider := provider })
                  ["POST", "OPTIONS"]
                methods := ["POST", "OPTIONS"] } ]
          else [])) := by
  unfold create_auth_routes
  rw [h]
  cases hc : cro.enabled <;> cases hr : ro.enabled <;> simp [hc, hr]

/-- Passing `none` for a policy is the same as passing its default. -/
theorem create_auth_routes_getD (provider : OAuthAuthorizationServerProvider)
    (issuer : AnyHttpUrl) (doc : Option String)
    (cro : Option ClientRegistrationOptions) (ro : Option RevocationOptions) :
    create_auth_routes provider issuer doc cro ro =
      create_auth_routes provider issuer doc
        (some (cro.getD defaultClientRegistrationOptions))
        (some (ro.getD defaultRevocationOptions)) := by
  cases cro <;> cases ro <;> rfl

end AuthRoutes

namespace AuthRoutes

/-- Claim C1, counterexample: the issuer `http:///` (scheme `http`, no
host, no fragment, no query) is accepted by `validate_issuer_url`, yet it
has neither the https scheme, nor host `localhost`, nor a host starting
with `127.0.0.1` — so the claimed characterization of success is false at
this input. -/
theorem C1_counterexample :
    validate_issuer_url exampleHostlessHttp = Except.ok () ∧
    ¬ (exampleHostlessHttp.scheme = "https" ∨
       exampleHostlessHttp.host = some "localhost" ∨
       ∃ h, exampleHostlessHttp.host = some h ∧
         "127.0.0.1".isPrefixOf h = true) := by
  refine ⟨rfl, ?_⟩
  rintro (hs | hh | ⟨h, hh, _⟩)
  · exact absurd hs (by decide)
  · exact Option.noConfusion hh
  · exact Option.noConfusion hh

/-- Claim C1, amended: `validate_issuer_url` succeeds iff the URL has no
truthy fragment, no truthy query, and either its scheme is https, or its
host is absent, or its host is exactly `localhost`, or its host starts
with `127.0.0.1`; in every other case it fails with an error. -/
theorem C1_amended_issuer_validation (url : AnyHttpUrl) :
    (validate_issuer_url url = Except.ok () ↔
      (pyTruthy url.fragment = false ∧ pyTruthy url.query = false ∧
       (url.scheme = "https" ∨ url.host = none ∨
        url.host = some "localhost" ∨
        ∃ h, url.host = some h ∧ "127.0.0.1".isPrefixOf h = true))) ∧
    (validate_issuer_url url = Except.ok () ∨
      ∃ msg, validate_issuer_url url = Except.error msg) := by
  constructor
  · rw [validate_ok_iff, schemeCond_false_iff]
    tauto
  · cases hv : validate_issuer_url url with
    | ok u => cases u; exact Or.inl rfl
    | error e => exact Or.inr ⟨e, rfl⟩

/-- Claim C2: the metadata document's `registration_endpoint` is present
iff the registration policy is enabled, and when present its value is the
issuer string with trailing slashes stripped followed by `/register`. -/
theorem C2_registration_endpoint (issuer : AnyHttpUrl) (doc : Option String)
    (cro : ClientRegistrationOptions) (ro : RevocationOptions) :
    (build_metadata issuer doc cro ro).registration_endpoint =
      (if cro.enabled then
        some (rstripSlash issuer.text ++ REGISTRATION_PATH)
      else none) := by
  rw [build_metadata_eq]

/-- Claim C3: `revocation_endpoint` and the revocation auth-methods field
are both present iff the revocation policy is enabled — both or neither —
and when absent they are `none` (entirely omitted); when present the
endpoint is the slash-stripped issuer plus `/revoke` and the auth methods
are exactly `client_secret_post`. -/
theorem C3_revocation_fields (issuer : AnyHttpUrl) (doc : Option String)
    (cro : ClientRegistrationOptions) (ro : RevocationOptions) :
    (build_metadata issuer doc cro ro).revocation_endpoint =
      (if ro.enabled then
        some (rstripSlash issuer.text ++ REVOCATION_PATH)
      else none) ∧
    (build_metadata issuer doc cro
        ro).revocation_endpoint_auth_methods_supported =
      (if ro.enabled then some ["client_secret_post"] else none) := by
  rw [build_metadata_eq]
  exact ⟨rfl, rfl⟩

/-- Claim C4, counterexample: for the issuer string
`https://auth.example.com//` the code strips every trailing slash, so the
authorization endpoint differs from the claimed result of stripping
exactly one trailing slash before appending `/authorize`. -/
theorem C4_counterexample :
    (build_metadata exampleDoubleSlash none defaultClientRegistrationOptions
        defaultRevocationOptions).authorization_endpoint ≠
      claimedStripOneTrailingSlash exampleDoubleSlash.text ++
        AUTHORIZATION_PATH := by
  decide

/-- Claim C4, amended: `build_metadata` derives the authorization and
token endpoints by stripping every trailing slash from the issuer string
and appending `/authorize` resp. `/token`; for
`https://auth.example.com` this gives the two endpoints of the spec's
example, and an issuer ending in two slashes loses both. -/
theorem C4_endpoint_derivation (issuer : AnyHttpUrl) (doc : Option String)
    (cro : ClientRegistrationOptions) (ro : RevocationOptions) :
    (build_metadata issuer doc cro ro).authorization_endpoint =
        rstripSlash issuer.text ++ AUTHORIZATION_PATH ∧
    (build_metadata issuer doc cro ro).token_endpoint =
        rstripSlash issuer.text ++ TOKEN_PATH ∧
    (build_metadata exampleIssuer doc cro ro).authorization_endpoint =
        "https://auth.example.com/authorize" ∧
    (build_metadata exampleIssuer doc cro ro).token_endpoint =
        "https://auth.example.com/token" ∧
    (build_metadata exampleDoubleSlash doc cro ro).authorization_endpoint =
        "https://auth.example.com/authorize" := by
  refine ⟨?_, ?_, ?_, ?_, ?_⟩ <;> rw [build_metadata_eq] <;> rfl

/-- Claim C5: on a valid issuer the route table has length 3 plus one per
enabled optional policy, its first three entries are the well-known
metadata path (GET, OPTIONS), the authorization path (GET, POST) and the
token path (POST, OPTIONS) in that order, and the registration entry
precedes the revocation entry when both are enabled. -/
theorem C5_route_table_shape (provider : OAuthAuthorizationServerProvider)
    (issuer : AnyHttpUrl) (doc : Option String)
    (cro : ClientRegistrationOptions) (ro : RevocationOptions)
    (h : validate_issuer_url issuer = Except.ok ()) :
    ∃ routes, create_auth_routes provider issuer doc (some cro) (some ro) =
        Except.ok routes ∧
      routes.length =
        3 + (if cro.enabled then 1 else 0) + (if ro.enabled then 1 else 0) ∧
      routes.map (fun r => (r.path, r.methods)) =
        [("/.well-known/oauth-authorization-server", ["GET", "OPTIONS"]),
         (AUTHORIZATION_PATH, ["GET", "POST"]),
         (TOKEN_PATH, ["POST", "OPTIONS"])] ++
        (if cro.enabled then [(REGISTRATION_PATH, ["POST", "OPTIONS"])]
         else []) ++
        (if ro.enabled then [(REVOCATION_PATH, ["POST", "OPTIONS"])]
         else []) := by
  refine ⟨_, create_auth_routes_ok provider issuer doc cro ro h, ?_, ?_⟩ <;>
    cases hc : cro.enabled <;> cases hr : ro.enabled <;> simp [hc, hr]

/-- Witness for claim C5 at the spec's example issuer with both policies
enabled: validation succeeds and the table has the claimed shape. -/
theorem C5_route_table_shape_witness :
    validate_issuer_url exampleIssuer = Except.ok () ∧
    ∃ routes,
      create_auth_routes exampleProvider exampleIssuer none
          (some exampleRegistrationOptions) (some exampleRevocationOptions) =
        Except.ok routes ∧
      routes.length =
        3 + (if exampleRegistrationOptions.enabled then 1 else 0) +
          (if exampleRevocationOptions.enabled then 1 else 0) ∧
      routes.map (fun r => (r.path, r.methods)) =
        [("/.well-known/oauth-authorization-server", ["GET", "OPTIONS"]),
         (AUTHORIZATION_PATH, ["GET", "POST"]),
         (TOKEN_PATH, ["POST", "OPTIONS"])] ++
        (if exampleRegistrationOptions.enabled then
          [(REGISTRATION_PATH, ["POST", "OPTIONS"])] else []) ++
        (if exampleRevocationOptions.enabled then
          [(REVOCATION_PATH, ["POST", "OPTIONS"])] else []) :=
  ⟨rfl, C5_route_table_shape exampleProvider exampleIssuer none
     exampleRegistrationOptions exampleRevocationOptions rfl⟩

end AuthRoutes

namespace AuthRoutes

/-- Claim C6: in every route table returned by `create_auth_routes`, the
authorization path's entry has an unwrapped handler, and every other
entry is wrapped in a cross-origin policy allowing any origin, exactly
that entry's methods, and exactly the protocol-version header. -/
theorem C6_cors_policy (provider : OAuthAuthorizationServerProvider)
    (issuer : AnyHttpUrl) (doc : Option String)
    (cro : Option ClientRegistrationOptions) (ro : Option RevocationOptions)
    (h : validate_issuer_url issuer = Except.ok ()) :
    ∃ routes, create_auth_routes provider issuer doc cro ro =
        Except.ok routes ∧
      ∀ r ∈ routes,
        (r.path = AUTHORIZATION_PATH →
          ∃ hd, r.endpoint = Endpoint.plain hd) ∧
        (r.path ≠ AUTHORIZATION_PATH →
          ∃ c, r.endpoint = Endpoint.cors c ∧ c.allow_origins = "*" ∧
            c.allow_methods = r.methods ∧
            c.allow_headers = [MCP_PROTOCOL_VERSION_HEADER]) := by
  rw [create_auth_routes_getD,
      create_auth_routes_ok provider issuer doc _ _ h]
  refine ⟨_, rfl, ?_⟩
  intro r hmem
  cases hc : (cro.getD defaultClientRegistrationOptions).enabled <;>
    cases hr : (ro.getD defaultRevocationOptions).enabled <;>
    simp only [hc, hr, Bool.false_eq_true, if_false, if_true,
      List.append_nil, List.mem_append, List.mem_cons,
      List.not_mem_nil, or_false, false_or] at hmem
  all_goals
    first
      | (rcases hmem with (((rfl | rfl | rfl) | rfl) | rfl))
      | (rcases hmem with ((rfl | rfl | rfl) | rfl))
      | (rcases hmem with (rfl | rfl | rfl))
  all_goals refine ⟨fun hp => ?_, fun hnp => ?_⟩
  all_goals
    first
      | exact ⟨_, rfl⟩
      | exact ⟨_, rfl, rfl, rfl, rfl⟩
      | exact absurd rfl hnp
      | simp [AUTHORIZATION_PATH, TOKEN_PATH, REGISTRATION_PATH,
          REVOCATION_PATH] at hp

/-- Witness for claim C6 at the spec's example issuer with both optional
policies enabled: validation succeeds and every entry satisfies the
cross-origin policy asymmetry. -/
theorem C6_cors_policy_witness :
    validate_issuer_url exampleIssuer = Except.ok () ∧
    ∃ routes, create_auth_routes exampleProvider exampleIssuer none
        (some exampleRegistrationOptions) (some exampleRevocationOptions) =
        Except.ok routes ∧
      ∀ r ∈ routes,
        (r.path = AUTHORIZATION_PATH →
          ∃ hd, r.endpoint = Endpoint.plain hd) ∧
        (r.path ≠ AUTHORIZATION_PATH →
          ∃ c, r.endpoint = Endpoint.cors c ∧ c.allow_origins = "*" ∧
            c.allow_methods = r.methods ∧
            c.allow_headers = [MCP_PROTOCOL_VERSION_HEADER]) :=
  ⟨rfl, C6_cors_policy exampleProvider exampleIssuer none
     (some exampleRegistrationOptions) (some exampleRevocationOptions) rfl⟩

/-- Claim C7: the metadata document's capability lists are the fixed
constants, its supported scopes equal the registration policy's
valid-scopes list verbatim (absent when none given), and the deliberately
unsupported optional fields are absent. -/
theorem C7_metadata_capabilities (issuer : AnyHttpUrl) (doc : Option String)
    (cro : ClientRegistrationOptions) (ro : RevocationOptions) :
    (build_metadata issuer doc cro ro).response_types_supported = ["code"] ∧
    (build_metadata issuer doc cro ro).grant_types_supported =
      ["authorization_code", "refresh_token"] ∧
    (build_metadata issuer doc cro ro).token_endpoint_auth_methods_supported =
      ["client_secret_post"] ∧
    (build_metadata issuer doc cro ro).code_challenge_methods_supported =
      ["S256"] ∧
    (build_metadata issuer doc cro ro).scopes_supported = cro.valid_scopes ∧
    (build_metadata issuer doc cro ro).response_modes_supported = none ∧
    (build_metadata issuer doc cro
        ro).token_endpoint_auth_signing_alg_values_supported = none ∧
    (build_metadata issuer doc cro ro).ui_locales_supported = none ∧
    (build_metadata issuer doc cro ro).op_policy_uri = none ∧
    (build_metadata issuer doc cro ro).op_tos_uri = none ∧
    (build_metadata issuer doc cro ro).introspection_endpoint = none := by
  rw [build_metadata_eq]
  exact ⟨rfl, rfl, rfl, rfl, rfl, rfl, rfl, rfl, rfl, rfl, rfl⟩

/-- Claim C8: with a non-empty trusted-issuer list,
`create_protected_resource_routes` returns exactly one route at the
protected-resource discovery path with methods GET and OPTIONS and a
cross-origin policy, and the served document carries the inputs verbatim
with bearer methods defaulting to header delivery. -/
theorem C8_protected_resource_routes (resource : String)
    (servers : List String) (scopes : Option (List String))
    (h : servers ≠ []) :
    ∃ m, create_protected_resource_routes resource servers scopes =
        Except.ok
          [ { path := "/.well-known/oauth-protected-resource"
              endpoint := Endpoint.cors
                { app := Handler.protectedResourceH m
                  allow_origins := "*"
                  allow_methods := ["GET", "OPTIONS"]
                  allow_headers := [MCP_PROTOCOL_VERSION_HEADER] }
              methods := ["GET", "OPTIONS"] } ] ∧
      m.resource = resource ∧
      m.authorization_servers = servers ∧
      m.scopes_supported = scopes ∧
      m.bearer_methods_supported = ["header"] := by
  cases servers with
  | nil => exact absurd rfl h
  | cons a as =>
      exact ⟨{ resource := resource, authorization_servers := a :: as,
               scopes_supported := scopes,
               bearer_methods_supported := ["header"] },
             rfl, rfl, rfl, rfl, rfl⟩

/-- Witness for claim C8 at the spec's protected-resource example: one
trusted issuer, no scopes given. -/
theorem C8_protected_resource_routes_witness :
    ("https://auth.example.com" :: [] : List String) ≠ [] ∧
    ∃ m, create_protected_resource_routes "https://res.example.com"
          ["https://auth.example.com"] none =
        Except.ok
          [ { path := "/.well-known/oauth-protected-resource"
              endpoint := Endpoint.cors
                { app := Handler.protectedResourceH m
                  allow_origins := "*"
                  allow_methods := ["GET", "OPTIONS"]
                  allow_headers := [MCP_PROTOCOL_VERSION_HEADER] }
              methods := ["GET", "OPTIONS"] } ] ∧
      m.resource = "https://res.example.com" ∧
      m.authorization_servers = ["https://auth.example.com"] ∧
      m.scopes_supported = none ∧
      m.bearer_methods_supported = ["header"] :=
  ⟨List.cons_ne_nil _ _,
   C8_protected_resource_routes "https://res.example.com"
     ["https://auth.example.com"] none (List.cons_ne_nil _ _)⟩

/-- Claim C9: with an empty trusted-authorization-servers list, assembly
fails outright with an error and no route table is produced. -/
theorem C9_empty_authorization_servers_fails (resource : String)
    (scopes : Option (List String)) :
    ∃ e, create_protected_resource_routes resource [] scopes =
      Except.error e :=
  ⟨"authorization_servers must not be empty", rfl⟩

/-- Claim C10: an issuer URL whose host is absent and that carries no
truthy fragment and no truthy query is accepted by `validate_issuer_url`
whatever its scheme. -/
theorem C10_hostless_url_validates (url : AnyHttpUrl) (hh : url.host = none)
    (hf : pyTruthy url.fragment = false) (hq : pyTruthy url.query = false) :
    validate_issuer_url url = Except.ok () := by
  simp [validate_issuer_url, hh, hf, hq]

/-- Witness for claim C10 at the host-less `http` issuer. -/
theorem C10_hostless_url_validates_witness :
    exampleHostlessHttp.host = none ∧
    pyTruthy exampleHostlessHttp.fragment = false ∧
    pyTruthy exampleHostlessHttp.query = false ∧
    validate_issuer_url exampleHostlessHttp = Except.ok () :=
  ⟨rfl, rfl, rfl, C10_hostless_url_validates exampleHostlessHttp rfl rfl rfl⟩

end AuthRoutes
